import Mathlib

/-!
Shallow embedding of `src/9dttt_bot.py` (the 9DTTT social-media bot).

Python strings are modelled as `List Char` (Python `len`/slicing count code
points, as does `List.length`/`List.take` on `List Char`).  Network calls are
modelled by explicit environment records describing their outcomes: a call
that the Python code observes as an exception of the caught class is a
`some errMsg` / `raise` constructor, a call whose response object has falsy
`.data` is a `noData` / `none`, and so on.  File writes follow the code's
`open(filename, 'w')`-then-`json.dump` shape: a failure at `open` leaves the
previous content, while a failure during the dump leaves a truncated,
unparseable file, since `open` with mode `w` truncates before anything is
written.
-/

/-- Python: `TWITTER_CHAR_LIMIT = 280` (line 25). -/
def TWITTER_CHAR_LIMIT : Nat := 280

/-- Python: `GAME_LINK = "https://www.9dttt.com"` (line 21). -/
def GAME_LINK : List Char := "https://www.9dttt.com".toList

/-- Python: `BOT_NAME = "9DTTT BOT"` (line 22). -/
def BOT_NAME : List Char := "9DTTT BOT".toList

/-- Python's substring test `needle in hay` on strings, over `List Char`. -/
def containsSub (needle : List Char) : List Char → Bool
  | [] => needle.isEmpty
  | c :: t => needle.isPrefixOf (c :: t) || containsSub needle t

/-- Lines 99-100 of `safe_post_tweet`: `error_str = str(e).lower()` followed by
`"402" in error_str or "creditsdepleted" in error_str or "payment required" in error_str`. -/
def isQuotaError (e : List Char) : Bool :=
  let errStr := e.map Char.toLower
  containsSub "402".toList errStr ||
    containsSub "creditsdepleted".toList errStr ||
    containsSub "payment required".toList errStr

/-- Lines 80-84 of `safe_post_tweet`: the quick truncation safeguard.
`isReply` is the truthiness of `in_reply_to_tweet_id`. -/
def truncated (text : List Char) (isReply : Bool) : List Char :=
  if text.length > TWITTER_CHAR_LIMIT then
    if isReply then
      text.take (TWITTER_CHAR_LIMIT - 60) ++ "...".toList
    else
      text.take (TWITTER_CHAR_LIMIT - 20) ++ "…".toList
  else text

/-- Outcome environment for one `safe_post_tweet` call.
`v2Result = none` means `client.create_tweet` returned normally;
`v2Result = some e` means it raised `tweepy.TweepyException` whose `str` is `e`.
`v1Ok` is whether `api_v1.update_status` would succeed if attempted
(its `except Exception` catches every failure). -/
structure PostEnv where
  v2Result : Option (List Char)
  v1Ok : Bool
  deriving Repr, DecidableEq

/-- Observable outcome of one `safe_post_tweet` call: the returned boolean,
the text submitted to the API surfaces (both surfaces use the same local
`text` after truncation), how many attempts were made on each surface, and
how many posts were actually published. -/
structure PostOut where
  result : Bool
  submitted : List Char
  v2Attempts : Nat
  v1Attempts : Nat
  published : Nat
  deriving Repr, DecidableEq

/-- Lines 71-121: `safe_post_tweet(text, media_ids, in_reply_to_tweet_id)`.
Try v2; on a `TweepyException` matching the quota signature fall through to
exactly one v1.1 attempt; on any other `TweepyException` return `False`;
a failed v1.1 fallback also returns `False`.  `media` is forwarded into the
call kwargs and does not affect control flow. -/
def safe_post_tweet (env : PostEnv) (text : List Char)
    (media : Option (List Nat)) (reply : Option Nat) : PostOut :=
  let t := truncated text reply.isSome
  match env.v2Result with
  | none => ⟨true, t, 1, 0, 1⟩
  | some e =>
    if isQuotaError e then
      ⟨env.v1Ok, t, 1, 1, if env.v1Ok then 1 else 0⟩
    else
      ⟨false, t, 1, 0, 0⟩

/-- Lines 142-146: `load_json_set(filename)`.  The file is `none` when it does
not exist, otherwise `some` of the JSON array of strings it holds.  The Python
`set(json.load(f))` is modelled as a duplicate-free list: a list with the same
members as the array. -/
def load_json_set : Option (List String) → List String
  | none => []
  | some l => l.dedup

/-- Outcome of a call that may raise: `raise`, or `ok` with its data. -/
inductive Fetch (α : Type) where
  | raise
  | ok (a : α)
  deriving Repr, DecidableEq

/-- On-disk content of the dedup file: `absent` (no file), `json l` (a
parseable JSON array of strings `l`), or `corrupt` — a truncated or
partially written file left behind by a write that failed after
`open(filename, 'w')` had already truncated it; such content is not a
parseable JSON array. -/
inductive FileContent where
  | absent
  | json (l : List String)
  | corrupt
  deriving Repr, DecidableEq

/-- The three outcomes of one `save_json_set` write: the write succeeds;
`open(filename, 'w')` itself raises `IOError`/`OSError` (before the file is
touched); or the write raises after `open` succeeded, i.e. after the file
was already truncated. -/
inductive WriteOutcome where
  | success
  | failAtOpen
  | failMidWrite
  deriving Repr, DecidableEq

/-- A parseable-or-absent file, as the disk content it denotes. -/
def fileOfOpt : Option (List String) → FileContent
  | none => FileContent.absent
  | some l => FileContent.json l

/-- Lines 142-146 on raw disk content: `os.path.exists` is true for a
truncated/partial file as well, so `json.load` is attempted on it and
raises (and in `bot_respond` that call sits at line 278, before the `try`
of line 279, so the raise propagates out of the cycle).  Parseable states
behave as `load_json_set`. -/
def load_json_file : FileContent → Fetch (List String)
  | FileContent.absent => Fetch.ok (load_json_set none)
  | FileContent.json l => Fetch.ok (load_json_set (some l))
  | FileContent.corrupt => Fetch.raise

/-- Lines 148-153: `save_json_set(data, filename)`.  `open(filename, 'w')`
truncates the file, then `json.dump(list(data), f)` writes it; an
`IOError`/`OSError` is caught and logged, so the function itself never
raises.  A failure raised by `open` leaves the previous content in place;
a failure raised during the dump leaves a truncated/partially written file
that is not a parseable JSON array.  Returns the disk content after the
call. -/
def save_json_set (data : List String) (file : FileContent) :
    WriteOutcome → FileContent
  | WriteOutcome.success => FileContent.json data
  | WriteOutcome.failAtOpen => file
  | WriteOutcome.failMidWrite => FileContent.corrupt

/-- Result of `client.get_user(id=...)` for one mention's author (line 290):
`raise` for a raised exception (propagates to the cycle-level handler),
`noData` for a response whose `.data` is falsy (line 291: skip),
`found` for a response carrying a user. -/
inductive LookupRes where
  | raise
  | noData
  | found
  deriving Repr, DecidableEq

/-- One mention of the fetched batch together with the outcomes of the
network calls its processing would make.  `id` is `str(mention.id)`.
`postOk` is the boolean `safe_post_tweet` returns for the reply (lines
86-121 show it converts every caught failure into `False`); `likeRaises`
is whether `client.like(mention.id)` (line 297) raises.
`generate_contextual_response` is not in the source file; modelled from the
spec, which requires content generation to fall back to canned text and
never propagate an error upward, so composing the reply is total and
raise-free and needs no outcome field here. -/
structure MentionCase where
  id : String
  lookup : LookupRes
  postOk : Bool
  likeRaises : Bool
  deriving Repr, DecidableEq

/-- Environment of one `bot_respond` cycle: the dedup file content at load
time, the outcome of `client.get_me` (`ok b` with `b` the truthiness of
`me.data`), and the outcome of `client.get_users_mentions` (`ok l` with `l`
the batch; the Python falsy test on `mentions.data` is `l.isEmpty`).
The file is parseable-or-absent because the cycle's `load_json_set` call
(line 278) sits before the `try` of line 279: on a corrupt file it raises
and no cycle takes place at all. -/
structure RespondEnv where
  file : Option (List String)
  me : Fetch Bool
  mentions : Fetch (List MentionCase)

/-- Trace of the per-mention loop (lines 286-301): the in-memory processed
set after the loop, the mention ids whose author lookup was attempted, whose
reply was attempted (`safe_post_tweet` called), whose like was attempted,
and whether an exception escaped the loop body (aborting the cycle). -/
structure LoopOut where
  procd : List String
  lookups : List String
  posts : List String
  likes : List String
  aborted : Bool
  deriving Repr, DecidableEq

/-- Lines 286-301: the `for mention in mentions.data` loop.  A mention whose
id is already in `processed` is skipped (`continue`); an author lookup that
raises aborts the cycle; falsy author data skips the mention; a successful
reply is followed by `client.like` (which may raise, aborting the cycle)
and then `processed.add(str(mention.id))`; a failed reply is only logged. -/
def processMentions (procd : List String) : List MentionCase → LoopOut
  | [] => ⟨procd, [], [], [], false⟩
  | m :: rest =>
    if m.id ∈ procd then
      processMentions procd rest
    else
      match m.lookup with
      | .raise => ⟨procd, [m.id], [], [], true⟩
      | .noData =>
        let o := processMentions procd rest
        ⟨o.procd, m.id :: o.lookups, o.posts, o.likes, o.aborted⟩
      | .found =>
        if m.postOk then
          if m.likeRaises then
            ⟨procd, [m.id], [m.id], [m.id], true⟩
          else
            let o := processMentions (procd.insert m.id) rest
            ⟨o.procd, m.id :: o.lookups, m.id :: o.posts, m.id :: o.likes, o.aborted⟩
        else
          let o := processMentions procd rest
          ⟨o.procd, m.id :: o.lookups, m.id :: o.posts, o.likes, o.aborted⟩

/-- Observable outcome of one `bot_respond` cycle: the in-memory processed
set when the cycle ends, the attempt traces, how many times `save_json_set`
was called, the on-disk dedup file content after the cycle, and whether an
exception reached the cycle-level `except` handler (line 303). -/
structure CycleOut where
  procd : List String
  lookups : List String
  posts : List String
  likes : List String
  saveCalls : Nat
  fileAfter : FileContent
  aborted : Bool
  deriving Repr, DecidableEq

/-- Lines 277-304: `bot_respond()`.  Loads the dedup set; returns early (no
save) when `me.data` or `mentions.data` is falsy; runs the mention loop;
calls `save_json_set` once after the loop — but only if no exception escaped
the loop, since the save sits inside the same `try` block; the outer
`except` catches any exception and ends the cycle without saving.
`w` is the outcome the save's file write would have. -/
def bot_respond (env : RespondEnv) (w : WriteOutcome) : CycleOut :=
  let processed := load_json_set env.file
  match env.me with
  | .raise => ⟨processed, [], [], [], 0, fileOfOpt env.file, true⟩
  | .ok meHasData =>
    if meHasData then
      match env.mentions with
      | .raise => ⟨processed, [], [], [], 0, fileOfOpt env.file, true⟩
      | .ok batch =>
        if batch.isEmpty then
          ⟨processed, [], [], [], 0, fileOfOpt env.file, false⟩
        else
          let o := processMentions processed batch
          ⟨o.procd, o.lookups, o.posts, o.likes,
            if o.aborted then 0 else 1,
            if o.aborted then fileOfOpt env.file
              else save_json_set o.procd (fileOfOpt env.file) w,
            o.aborted⟩
    else
      ⟨processed, [], [], [], 0, fileOfOpt env.file, false⟩

/-- A JSON object body, as the assoc list of its entries (the bot only reads
string-valued fields).  Python dict truthiness is non-emptiness. -/
abbrev EventDict : Type := List (String × String)

/-- Python `event.get("type")` style lookup on an `EventDict`. -/
def dictGet (d : EventDict) (k : String) : Option String :=
  match d with
  | [] => none
  | (k₂, v) :: t => if k₂ = k then some v else dictGet t k

/-- Observable behaviour of one event handler invocation: the texts it posted
before returning or raising, and whether it raised. -/
structure HandlerResult where
  posts : List String
  raises : Bool

/-- The six `handle_xxx_event` handlers dispatched by `game_event_bridge`
(lines 236-241).  Their bodies are not in the source file (line 257 leaves
them to be pasted in), so the bridge is verified for arbitrary handlers. -/
structure Handlers where
  win : EventDict → HandlerResult
  gameStart : EventDict → HandlerResult
  tournament : EventDict → HandlerResult
  achievement : EventDict → HandlerResult
  challenge : EventDict → HandlerResult
  leaderboard : EventDict → HandlerResult

/-- Lines 233-244: `game_event_bridge(event)`.  Dispatches on
`event.get("type")` to one of six handlers; an unrecognized type falls
through with no handler call; the surrounding `try/except Exception`
catches every handler exception, so the bridge never raises outward. -/
def game_event_bridge (h : Handlers) (event : EventDict) : HandlerResult :=
  let etype := dictGet event "type"
  let r : HandlerResult :=
    if etype = some "win" then h.win event
    else if etype = some "game_start" then h.gameStart event
    else if etype = some "tournament" then h.tournament event
    else if etype = some "achievement" then h.achievement event
    else if etype = some "challenge" then h.challenge event
    else if etype = some "leaderboard" then h.leaderboard event
    else ⟨[], false⟩
  ⟨r.posts, false⟩

/-- HTTP response of the webhook endpoint: `400` with the JSON error body, or
`200` with `{"ok": true}`. -/
inductive WebhookResp where
  | err400
  | ok200
  deriving Repr, DecidableEq

/-- Observable outcome of one `POST /9dttt-event` request: the response,
whether `game_event_bridge` was invoked, and the texts posted. -/
structure GEOut where
  resp : WebhookResp
  dispatched : Bool
  posts : List String

/-- Lines 128-134: the `game_event` Flask view.  `body` is `request.json`:
`none` when the request carries no parseable JSON body, otherwise the decoded
object.  The guard is Python truthiness — `if not request.json` — so a `none`
body or an empty object yields the 400 branch; otherwise the event is passed
to `game_event_bridge` and `{"ok": True}` (HTTP 200) is returned. -/
def game_event (h : Handlers) (body : Option EventDict) : GEOut :=
  match body with
  | none => ⟨.err400, false, []⟩
  | some d =>
    if d.isEmpty then ⟨.err400, false, []⟩
    else
      let r := game_event_bridge h d
      ⟨.ok200, true, r.posts⟩

/-- Lines 246-255: the text assembly of `post_update(text)`.  `tag` is the
`get_personality_line()` draw.  Builds the full message; if it exceeds the
limit, rebuilds it as the emoji header, the body truncated to
`280 - len("🎮 \n\n" + GAME_LINK)` characters, and the game link. -/
def post_update_text (text tag : List Char) : List Char :=
  let full := ("🎮 ".toList ++ BOT_NAME ++ " UPDATE 🎮\n\n".toList ++ text
    ++ "\n\n".toList ++ tag ++ "\n\n".toList) ++ GAME_LINK
  if full.length > TWITTER_CHAR_LIMIT then
    let maxTextLength := TWITTER_CHAR_LIMIT - ("🎮 \n\n".toList ++ GAME_LINK).length
    ("🎮 ".toList ++ text.take maxTextLength ++ "\n\n".toList) ++ GAME_LINK
  else full

/-- The six handlers instantiated with concrete canned behaviour, used to
evaluate the webhook endpoint on concrete requests. -/
def hPost : Handlers :=
  ⟨fun _ => ⟨["win post"], false⟩, fun _ => ⟨["game_start post"], false⟩,
    fun _ => ⟨["tournament post"], false⟩, fun _ => ⟨["achievement post"], false⟩,
    fun _ => ⟨["challenge post"], false⟩, fun _ => ⟨["leaderboard post"], false⟩⟩

/-- A concrete cycle environment: the dedup file holds `"old"`; mention `"A"`
is replied to and liked successfully, then mention `"B"`'s author lookup
raises mid-batch. -/
def envLoss : RespondEnv :=
  ⟨some ["old"], Fetch.ok true,
    Fetch.ok [⟨"A", LookupRes.found, true, false⟩, ⟨"B", LookupRes.raise, true, false⟩]⟩

/-- A concrete cycle environment whose single new mention `"X"` succeeds, so
the cycle runs to the save. -/
def envPersist : RespondEnv :=
  ⟨some ["keep"], Fetch.ok true, Fetch.ok [⟨"X", LookupRes.found, true, false⟩]⟩

set_option maxRecDepth 4000

/-- Helper: on over-limit input, `truncated` keeps the first `LIMIT - 60`
characters plus `"..."` when replying, the first `LIMIT - 20` characters plus
`"…"` otherwise, stays within the limit, and ends with an ellipsis marker. -/
theorem truncated_overlong (text : List Char) (isReply : Bool)
    (h : text.length > TWITTER_CHAR_LIMIT) :
    (truncated text isReply).length ≤ TWITTER_CHAR_LIMIT ∧
    (isReply = true →
      truncated text isReply = text.take (TWITTER_CHAR_LIMIT - 60) ++ "...".toList) ∧
    (isReply = false →
      truncated text isReply = text.take (TWITTER_CHAR_LIMIT - 20) ++ "…".toList) ∧
    ("...".toList <:+ truncated text isReply ∨ "…".toList <:+ truncated text isReply) := by
  cases isReply with
  | false =>
    have heq : truncated text false = text.take (TWITTER_CHAR_LIMIT - 20) ++ "…".toList := by
      simp [truncated, h]
    have hmin : min (TWITTER_CHAR_LIMIT - 20) text.length = TWITTER_CHAR_LIMIT - 20 := by
      unfold TWITTER_CHAR_LIMIT at h ⊢
      omega
    refine ⟨?_, by simp, fun _ => heq, Or.inr (heq ▸ List.suffix_append _ _)⟩
    rw [heq]
    simp only [List.length_append, List.length_take, hmin]
    decide
  | true =>
    have heq : truncated text true = text.take (TWITTER_CHAR_LIMIT - 60) ++ "...".toList := by
      simp [truncated, h]
    have hmin : min (TWITTER_CHAR_LIMIT - 60) text.length = TWITTER_CHAR_LIMIT - 60 := by
      unfold TWITTER_CHAR_LIMIT at h ⊢
      omega
    refine ⟨?_, fun _ => heq, by simp, Or.inl (heq ▸ List.suffix_append _ _)⟩
    rw [heq]
    simp only [List.length_append, List.length_take, hmin]
    decide

/-- Helper: the text submitted by `safe_post_tweet` to either API surface is
always the truncation of the input, whatever the call outcomes are. -/
theorem safe_post_tweet_submitted_eq (env : PostEnv) (text : List Char)
    (media : Option (List Nat)) (reply : Option Nat) :
    (safe_post_tweet env text media reply).submitted = truncated text reply.isSome := by
  rcases env with ⟨v2, v1⟩
  cases v2 with
  | none => simp [safe_post_tweet]
  | some e => by_cases hq : isQuotaError e <;> simp [safe_post_tweet, hq]

/-- Claim C1: the v1.1 fallback attempt is made if and only if the v2 attempt
fails with a quota/payment-class error (error string containing `402`,
`creditsdepleted` or `payment required`, case-insensitively), and then exactly
one fallback attempt is made; any other primary failure, or failure of the
fallback itself, makes `safe_post_tweet` return `false` with no further
attempt, so at most one post is published per call across the two surfaces. -/
theorem safe_post_tweet_fallback_policy (env : PostEnv) (text : List Char)
    (media : Option (List Nat)) (reply : Option Nat) :
    ((safe_post_tweet env text media reply).v1Attempts =
      match env.v2Result with
      | none => 0
      | some e => if isQuotaError e then 1 else 0) ∧
    (safe_post_tweet env text media reply).v1Attempts ≤ 1 ∧
    ((safe_post_tweet env text media reply).result =
      match env.v2Result with
      | none => true
      | some e => isQuotaError e && env.v1Ok) ∧
    (safe_post_tweet env text media reply).published ≤ 1 := by
  rcases env with ⟨v2, v1⟩
  cases v2 with
  | none => simp [safe_post_tweet]
  | some e =>
    by_cases hq : isQuotaError e
    · cases v1 <;> simp [safe_post_tweet, hq]
    · simp [safe_post_tweet, hq]

/-- Claim C3: for input text longer than the 280-character limit,
`safe_post_tweet` submits a truncated text of length at most the limit that
ends with an ellipsis marker; with a reply id it keeps the first `280 - 60`
characters before `"..."`, without one the first `280 - 20` before `"…"`. -/
theorem safe_post_tweet_truncates_overlong (env : PostEnv) (text : List Char)
    (media : Option (List Nat)) (reply : Option Nat)
    (h : text.length > TWITTER_CHAR_LIMIT) :
    ((safe_post_tweet env text media reply).submitted).length ≤ TWITTER_CHAR_LIMIT ∧
    (∀ r : Nat, reply = some r →
      (safe_post_tweet env text media reply).submitted
        = text.take (TWITTER_CHAR_LIMIT - 60) ++ "...".toList) ∧
    (reply = none →
      (safe_post_tweet env text media reply).submitted
        = text.take (TWITTER_CHAR_LIMIT - 20) ++ "…".toList) ∧
    ("...".toList <:+ (safe_post_tweet env text media reply).submitted ∨
      "…".toList <:+ (safe_post_tweet env text media reply).submitted) := by
  rw [safe_post_tweet_submitted_eq]
  obtain ⟨h1, h2, h3, h4⟩ := truncated_overlong text reply.isSome h
  refine ⟨h1, ?_, ?_, h4⟩
  · intro r hr
    exact h2 (by simp [hr])
  · intro hr
    exact h3 (by simp [hr])

/-- Claim C3 witness: a 281-character reply text is over the limit and its
submitted form is within the limit. -/
theorem safe_post_tweet_truncates_overlong_witness :
    (List.replicate 281 'a').length > TWITTER_CHAR_LIMIT ∧
    ((safe_post_tweet ⟨none, true⟩ (List.replicate 281 'a') none (some 5)).submitted).length
      ≤ TWITTER_CHAR_LIMIT :=
  ⟨by decide,
    (safe_post_tweet_truncates_overlong ⟨none, true⟩ (List.replicate 281 'a') none (some 5)
      (by decide)).1⟩

/-- Claim C9: `load_json_set` returns the empty set when the dedup file does
not exist, and otherwise exactly the set of strings in the file's JSON array
(same members). -/
theorem load_json_set_semantics :
    load_json_set none = [] ∧
    ∀ (l : List String) (id : String), id ∈ load_json_set (some l) ↔ id ∈ l := by
  refine ⟨rfl, ?_⟩
  intro l id
  simp [load_json_set, List.mem_dedup]

/-- Claim C6 (amended): the text posted by `post_update` is always within the
280-character limit and always ends with the game link, in both the direct and
the rebuilt-after-overflow branch. -/
theorem post_update_text_keeps_link (text tag : List Char) :
    (post_update_text text tag).length ≤ TWITTER_CHAR_LIMIT ∧
    GAME_LINK <:+ post_update_text text tag := by
  simp only [post_update_text]
  by_cases hfull :
      (("🎮 ".toList ++ BOT_NAME ++ " UPDATE 🎮\n\n".toList ++ text
        ++ "\n\n".toList ++ tag ++ "\n\n".toList) ++ GAME_LINK).length > TWITTER_CHAR_LIMIT
  · rw [if_pos hfull]
    constructor
    · have h4 : ("🎮 \n\n".toList ++ GAME_LINK).length = 25 := by decide
      have h1 : ("🎮 ".toList).length = 2 := by decide
      have h2 : ("\n\n".toList).length = 2 := by decide
      have h3 : GAME_LINK.length = 21 := by decide
      have hm := Nat.min_le_left (TWITTER_CHAR_LIMIT - ("🎮 \n\n".toList ++ GAME_LINK).length)
        text.length
      simp only [List.length_append, List.length_take, h1, h2, h3, h4] at *
      unfold TWITTER_CHAR_LIMIT at *
      omega
    · exact List.suffix_append _ _
  · rw [if_neg hfull]
    constructor
    · omega
    · exact List.suffix_append _ _

/-- Claim C6 counterexample: with a 250-character body and the canned
personality line `"Challenge accepted."`, the assembled message contains the
personality line and exceeds the limit, but the text actually posted no
longer contains the personality line anywhere — the tag suffix is the part
silently dropped, contradicting the claim that only the body is truncated. -/
theorem post_update_drops_personality_tag :
    (("🎮 ".toList ++ BOT_NAME ++ " UPDATE 🎮\n\n".toList ++ List.replicate 250 'a'
        ++ "\n\n".toList ++ "Challenge accepted.".toList ++ "\n\n".toList) ++ GAME_LINK).length
      > TWITTER_CHAR_LIMIT ∧
    containsSub "Challenge accepted.".toList
      (("🎮 ".toList ++ BOT_NAME ++ " UPDATE 🎮\n\n".toList ++ List.replicate 250 'a'
        ++ "\n\n".toList ++ "Challenge accepted.".toList ++ "\n\n".toList) ++ GAME_LINK) = true ∧
    containsSub "Challenge accepted.".toList
      (post_update_text (List.replicate 250 'a') "Challenge accepted.".toList) = false := by
  decide

/-- Helper: an identifier already in the processed set before the loop stays
in it, and the loop never looks up, replies to, or likes a mention with that
identifier. -/
theorem processMentions_mem_invariant (ms : List MentionCase) :
    ∀ (procd : List String) (id : String), id ∈ procd →
      id ∈ (processMentions procd ms).procd ∧
      id ∉ (processMentions procd ms).lookups ∧
      id ∉ (processMentions procd ms).posts ∧
      id ∉ (processMentions procd ms).likes := by
  induction ms with
  | nil =>
    intro procd id h
    simp [processMentions, h]
  | cons m rest ih =>
    intro procd id h
    by_cases hm : m.id ∈ procd
    · simpa [processMentions, hm] using ih procd id h
    · have hne : id ≠ m.id := fun he => hm (he ▸ h)
      cases hl : m.lookup with
      | raise => simp [processMentions, hm, hl, h, hne]
      | noData =>
        obtain ⟨h1, h2, h3, h4⟩ := ih procd id h
        simp [processMentions, hm, hl, h1, h2, h3, h4, hne]
      | found =>
        by_cases hp : m.postOk
        · by_cases hk : m.likeRaises
          · simp [processMentions, hm, hl, hp, hk, h, hne]
          · obtain ⟨h1, h2, h3, h4⟩ :=
              ih (m.id :: procd) id (List.mem_cons_of_mem _ h)
            simp [processMentions, hm, hl, hp, hk, List.insert_of_not_mem hm,
              h1, h2, h3, h4, hne]
        · obtain ⟨h1, h2, h3, h4⟩ := ih procd id h
          simp [processMentions, hm, hl, hp, h1, h2, h3, h4, hne]

/-- Claim C2: in every `bot_respond` cycle, a mention whose string identifier
is already in the loaded dedup set is skipped with no side effects — no
author lookup, no reply post, no like — and the identifier stays in the set;
hence an identifier present in the set is never replied to again. -/
theorem bot_respond_skips_processed (env : RespondEnv) (w : WriteOutcome) (id : String)
    (h : id ∈ load_json_set env.file) :
    id ∈ (bot_respond env w).procd ∧
    id ∉ (bot_respond env w).lookups ∧
    id ∉ (bot_respond env w).posts ∧
    id ∉ (bot_respond env w).likes := by
  rcases env with ⟨file, me, mentions⟩
  cases me with
  | raise => simpa [bot_respond] using h
  | ok b =>
    cases b with
    | false => simpa [bot_respond] using h
    | true =>
      cases mentions with
      | raise => simpa [bot_respond] using h
      | ok batch =>
        by_cases hb : batch.isEmpty
        · simpa [bot_respond, hb] using h
        · obtain ⟨h1, h2, h3, h4⟩ :=
            processMentions_mem_invariant batch (load_json_set file) id h
          simp [bot_respond, hb]
          exact ⟨h1, h2, h3, h4⟩

/-- Claim C2 witness: with the dedup set `{"42"}` and a batch holding mentions
`"42"` and `"43"`, mention `"42"` is neither looked up, nor replied to, nor
liked, and stays in the set. -/
theorem bot_respond_skips_processed_witness :
    "42" ∈ load_json_set (some ["42"]) ∧
    ("42" ∈ (bot_respond ⟨some ["42"], Fetch.ok true,
        Fetch.ok [⟨"42", LookupRes.found, true, false⟩,
          ⟨"43", LookupRes.found, true, false⟩]⟩ WriteOutcome.success).procd ∧
      "42" ∉ (bot_respond ⟨some ["42"], Fetch.ok true,
        Fetch.ok [⟨"42", LookupRes.found, true, false⟩,
          ⟨"43", LookupRes.found, true, false⟩]⟩ WriteOutcome.success).lookups ∧
      "42" ∉ (bot_respond ⟨some ["42"], Fetch.ok true,
        Fetch.ok [⟨"42", LookupRes.found, true, false⟩,
          ⟨"43", LookupRes.found, true, false⟩]⟩ WriteOutcome.success).posts ∧
      "42" ∉ (bot_respond ⟨some ["42"], Fetch.ok true,
        Fetch.ok [⟨"42", LookupRes.found, true, false⟩,
          ⟨"43", LookupRes.found, true, false⟩]⟩ WriteOutcome.success).likes) :=
  ⟨by decide,
    bot_respond_skips_processed ⟨some ["42"], Fetch.ok true,
      Fetch.ok [⟨"42", LookupRes.found, true, false⟩,
        ⟨"43", LookupRes.found, true, false⟩]⟩ WriteOutcome.success "42" (by decide)⟩

/-- Claim C5 counterexample: mention `"L"`'s author lookup raises; the whole
cycle aborts at it — mention `"M"` after it is never looked up, replied to,
or marked, and no save happens — contradicting the claim that an
author-lookup failure is isolated to its mention and that the cycle as a
whole does not abort on a per-mention failure. -/
theorem lookup_exception_aborts_cycle :
    (processMentions [] [⟨"L", LookupRes.raise, true, false⟩,
        ⟨"M", LookupRes.found, true, false⟩]).aborted = true ∧
    "M" ∉ (processMentions [] [⟨"L", LookupRes.raise, true, false⟩,
        ⟨"M", LookupRes.found, true, false⟩]).lookups ∧
    "M" ∉ (processMentions [] [⟨"L", LookupRes.raise, true, false⟩,
        ⟨"M", LookupRes.found, true, false⟩]).posts ∧
    "M" ∉ (processMentions [] [⟨"L", LookupRes.raise, true, false⟩,
        ⟨"M", LookupRes.found, true, false⟩]).procd ∧
    (bot_respond ⟨some [], Fetch.ok true,
        Fetch.ok [⟨"L", LookupRes.raise, true, false⟩,
          ⟨"M", LookupRes.found, true, false⟩]⟩ WriteOutcome.success).aborted = true ∧
    (bot_respond ⟨some [], Fetch.ok true,
        Fetch.ok [⟨"L", LookupRes.raise, true, false⟩,
          ⟨"M", LookupRes.found, true, false⟩]⟩ WriteOutcome.success).saveCalls = 0 := by
  decide

/-- Claim C5 (amended): a per-mention failure that the loop observes as data
— the author lookup returning no user data, or the reply post returning
failure — leaves the processed set and the abort status exactly as the
remaining batch alone would, and likes nothing extra, so that mention is
skipped without being marked processed and processing continues with the
next mention; but an author lookup that raises an exception aborts the
entire cycle at that mention: the loop stops with only that lookup
attempted and the remaining mentions untouched. -/
theorem processMentions_failure_modes (procd : List String) (m : MentionCase)
    (rest : List MentionCase) :
    (m.lookup = LookupRes.noData ∨ (m.lookup = LookupRes.found ∧ m.postOk = false) →
      (processMentions procd (m :: rest)).procd = (processMentions procd rest).procd ∧
      (processMentions procd (m :: rest)).aborted = (processMentions procd rest).aborted ∧
      (processMentions procd (m :: rest)).likes = (processMentions procd rest).likes ∧
      ((processMentions procd (m :: rest)).posts = (processMentions procd rest).posts ∨
        (processMentions procd (m :: rest)).posts
          = m.id :: (processMentions procd rest).posts)) ∧
    (m.id ∉ procd → m.lookup = LookupRes.raise →
      processMentions procd (m :: rest) = ⟨procd, [m.id], [], [], true⟩) := by
  constructor
  · intro h
    by_cases hm : m.id ∈ procd
    · simp [processMentions, hm]
    · rcases h with hl | ⟨hl, hp⟩
      · simp [processMentions, hm, hl]
      · simp [processMentions, hm, hl, hp]
  · intro hm hl
    simp [processMentions, hm, hl]

/-- Claim C5 witness: mention `"7"` whose author lookup returns no data is
skipped unmarked while the batch continues with `"8"`; mention `"9"` whose
author lookup raises stops the loop with only that lookup attempted. -/
theorem processMentions_failure_modes_witness :
    (((⟨"7", LookupRes.noData, true, false⟩ : MentionCase).lookup = LookupRes.noData ∨
      ((⟨"7", LookupRes.noData, true, false⟩ : MentionCase).lookup = LookupRes.found ∧
        (⟨"7", LookupRes.noData, true, false⟩ : MentionCase).postOk = false)) ∧
      ((processMentions [] [⟨"7", LookupRes.noData, true, false⟩,
          ⟨"8", LookupRes.found, true, false⟩]).procd
        = (processMentions [] [⟨"8", LookupRes.found, true, false⟩]).procd ∧
       (processMentions [] [⟨"7", LookupRes.noData, true, false⟩,
          ⟨"8", LookupRes.found, true, false⟩]).aborted
        = (processMentions [] [⟨"8", LookupRes.found, true, false⟩]).aborted ∧
       (processMentions [] [⟨"7", LookupRes.noData, true, false⟩,
          ⟨"8", LookupRes.found, true, false⟩]).likes
        = (processMentions [] [⟨"8", LookupRes.found, true, false⟩]).likes ∧
       ((processMentions [] [⟨"7", LookupRes.noData, true, false⟩,
          ⟨"8", LookupRes.found, true, false⟩]).posts
          = (processMentions [] [⟨"8", LookupRes.found, true, false⟩]).posts ∨
        (processMentions [] [⟨"7", LookupRes.noData, true, false⟩,
          ⟨"8", LookupRes.found, true, false⟩]).posts
          = "7" :: (processMentions [] [⟨"8", LookupRes.found, true, false⟩]).posts))) ∧
    (("9" : String) ∉ ([] : List String) ∧
      processMentions [] [⟨"9", LookupRes.raise, true, false⟩,
          ⟨"10", LookupRes.found, true, false⟩]
        = ⟨[], ["9"], [], [], true⟩) :=
  ⟨⟨Or.inl rfl,
    (processMentions_failure_modes [] ⟨"7", LookupRes.noData, true, false⟩
      [⟨"8", LookupRes.found, true, false⟩]).1 (Or.inl rfl)⟩,
   ⟨by decide,
    (processMentions_failure_modes [] ⟨"9", LookupRes.raise, true, false⟩
      [⟨"10", LookupRes.found, true, false⟩]).2 (by decide) rfl⟩⟩

/-- Claim C4 counterexample: in `envLoss`, mention `"A"` is replied to and
marked processed in memory, then mention `"B"`'s author lookup raises; the
cycle ends with zero persists and the file unchanged, so the newly processed
identifier `"A"` — which is not the in-flight mention — loses its
processed-state, refuting both "persisted exactly once per cycle" and "at
most the in-flight mention's processed-state is lost". -/
theorem bot_respond_midcycle_loss :
    "A" ∈ (bot_respond envLoss WriteOutcome.success).posts ∧
    "A" ∈ (bot_respond envLoss WriteOutcome.success).procd ∧
    "A" ∉ load_json_set (some ["old"]) ∧
    (bot_respond envLoss WriteOutcome.success).aborted = true ∧
    (bot_respond envLoss WriteOutcome.success).saveCalls = 0 ∧
    (bot_respond envLoss WriteOutcome.success).fileAfter = FileContent.json ["old"] ∧
    load_json_file (bot_respond envLoss WriteOutcome.success).fileAfter
      = Fetch.ok ["old"] ∧
    "A" ∉ (["old"] : List String) := by decide

/-- Claim C4 (amended): the dedup set is persisted at most once per
`bot_respond` cycle, and exactly once precisely when `me.data` is truthy,
the fetched mention batch is non-empty, and the loop finishes without an
exception; cycles that return early or abort perform no write and leave the
file exactly as loaded — losing the processed-state of every identifier
newly marked in that cycle, not only the in-flight mention's; the single
save writes the whole in-memory set, so when the write succeeds (or fails
already at `open`) no previously persisted identifier is lost, the only
losing outcome being a mid-write failure of the save itself, which corrupts
the file. -/
theorem bot_respond_persist_policy (env : RespondEnv) (w : WriteOutcome) :
    (bot_respond env w).saveCalls ≤ 1 ∧
    ((bot_respond env w).saveCalls = 1 ↔
      (env.me = Fetch.ok true ∧ ∃ batch : List MentionCase,
        env.mentions = Fetch.ok batch ∧ batch.isEmpty = false ∧
        (processMentions (load_json_set env.file) batch).aborted = false)) ∧
    ((bot_respond env w).aborted = true → (bot_respond env w).saveCalls = 0) ∧
    ((bot_respond env w).saveCalls = 0 →
      (bot_respond env w).fileAfter = fileOfOpt env.file) ∧
    ((bot_respond env w).saveCalls = 1 →
      (bot_respond env w).fileAfter
        = save_json_set (bot_respond env w).procd (fileOfOpt env.file) w) ∧
    (w = WriteOutcome.success ∨ w = WriteOutcome.failAtOpen →
      ∀ id : String, id ∈ load_json_set env.file →
        ∃ l : List String,
          load_json_file (bot_respond env w).fileAfter = Fetch.ok l ∧ id ∈ l) := by
  have hload : ∀ f : Option (List String),
      load_json_file (fileOfOpt f) = Fetch.ok (load_json_set f) := by
    intro f
    cases f <;> rfl
  rcases env with ⟨file, me, mentions⟩
  cases me with
  | raise =>
    refine ⟨by simp [bot_respond], by simp [bot_respond], by simp [bot_respond],
      fun _ => by simp [bot_respond], by simp [bot_respond], ?_⟩
    intro _ id hid
    exact ⟨load_json_set file, by simp [bot_respond, hload], hid⟩
  | ok b =>
    cases b with
    | false =>
      refine ⟨by simp [bot_respond], by simp [bot_respond], by simp [bot_respond],
        fun _ => by simp [bot_respond], by simp [bot_respond], ?_⟩
      intro _ id hid
      exact ⟨load_json_set file, by simp [bot_respond, hload], hid⟩
    | true =>
      cases mentions with
      | raise =>
        refine ⟨by simp [bot_respond], by simp [bot_respond], by simp [bot_respond],
          fun _ => by simp [bot_respond], by simp [bot_respond], ?_⟩
        intro _ id hid
        exact ⟨load_json_set file, by simp [bot_respond, hload], hid⟩
      | ok batch =>
        by_cases hb : batch.isEmpty
        · refine ⟨by simp [bot_respond, hb],
            by
              simp [bot_respond, hb]
              intro hne
              exact absurd (List.isEmpty_iff.mp hb) hne,
            by simp [bot_respond, hb], fun _ => by simp [bot_respond, hb],
            by simp [bot_respond, hb], ?_⟩
          intro _ id hid
          exact ⟨load_json_set file, by simp [bot_respond, hb, hload], hid⟩
        · by_cases ha : (processMentions (load_json_set file) batch).aborted = true
          · refine ⟨by simp [bot_respond, hb, ha], by simp [bot_respond, hb, ha],
              fun _ => by simp [bot_respond, hb, ha],
              fun _ => by simp [bot_respond, hb, ha],
              by simp [bot_respond, hb, ha], ?_⟩
            intro _ id hid
            exact ⟨load_json_set file, by simp [bot_respond, hb, ha, hload], hid⟩
          · refine ⟨by simp [bot_respond, hb, ha],
              by
                simp [bot_respond, hb, ha]
                intro he
                exact hb (by simp [he]),
              by simp [bot_respond, hb, ha],
              by simp [bot_respond, hb, ha],
              by simp [bot_respond, hb, ha], ?_⟩
            intro hw id hid
            have h1 := (processMentions_mem_invariant batch (load_json_set file) id hid).1
            rcases hw with hw | hw
            · subst hw
              have hfa : (bot_respond ⟨file, Fetch.ok true, Fetch.ok batch⟩
                    WriteOutcome.success).fileAfter
                  = FileContent.json (processMentions (load_json_set file) batch).procd := by
                simp [bot_respond, hb, ha, save_json_set]
              refine ⟨(processMentions (load_json_set file) batch).procd.dedup, ?_, ?_⟩
              · rw [hfa]
                simp [load_json_file, load_json_set]
              · exact List.mem_dedup.mpr h1
            · subst hw
              have hfa : (bot_respond ⟨file, Fetch.ok true, Fetch.ok batch⟩
                    WriteOutcome.failAtOpen).fileAfter = fileOfOpt file := by
                simp [bot_respond, hb, ha, save_json_set]
              refine ⟨load_json_set file, ?_, hid⟩
              rw [hfa, hload]

/-- Claim C4 witness: in `envPersist` the cycle completes, saves exactly
once, the file after the cycle is the saved whole in-memory set, and the
previously persisted `"keep"` is still observable to the next load. -/
theorem bot_respond_persist_policy_witness :
    (bot_respond envPersist WriteOutcome.success).saveCalls = 1 ∧
    (bot_respond envPersist WriteOutcome.success).fileAfter
      = save_json_set (bot_respond envPersist WriteOutcome.success).procd
          (fileOfOpt envPersist.file) WriteOutcome.success ∧
    ("keep" ∈ load_json_set envPersist.file ∧
      ∃ l : List String,
        load_json_file (bot_respond envPersist WriteOutcome.success).fileAfter
          = Fetch.ok l ∧ "keep" ∈ l) :=
  ⟨by decide,
    (bot_respond_persist_policy envPersist WriteOutcome.success).2.2.2.2.1 (by decide),
    by decide,
    (bot_respond_persist_policy envPersist WriteOutcome.success).2.2.2.2.2
      (Or.inl rfl) "keep" (by decide)⟩

/-- Claim C10 counterexample: a write that fails after `open(filename, 'w')`
succeeded leaves a truncated file, not the last successful save's content:
the next load raises on it instead of observing `["old"]`, refuting "the
on-disk file content from the last successful save is what remains
observable to the next load". -/
theorem save_json_set_midwrite_corrupts :
    save_json_set ["A"] (FileContent.json ["old"]) WriteOutcome.failMidWrite
      = FileContent.corrupt ∧
    load_json_file (save_json_set ["A"] (FileContent.json ["old"])
      WriteOutcome.failMidWrite) = Fetch.raise ∧
    load_json_file (FileContent.json ["old"]) = Fetch.ok ["old"] := by decide

/-- Claim C10 (amended): `save_json_set` never raises — an `IOError`/`OSError`
while writing is caught and logged, and the calling cycle completes
identically whatever the write outcome (same abort status, posts, likes,
in-memory set and save count); a failure at `open` leaves the last
successful save's content observable to the next load, and a cycle whose
save fails at `open` ends with the file exactly as loaded; but because
`open(filename, 'w')` truncates before `json.dump` writes, a failure during
the write leaves a truncated file on which the next load raises. -/
theorem save_json_set_failure_semantics :
    (∀ (data : List String) (file : FileContent),
      save_json_set data file WriteOutcome.failAtOpen = file ∧
      save_json_set data file WriteOutcome.success = FileContent.json data ∧
      save_json_set data file WriteOutcome.failMidWrite = FileContent.corrupt) ∧
    (∀ (env : RespondEnv) (w w₂ : WriteOutcome),
      (bot_respond env w).aborted = (bot_respond env w₂).aborted ∧
      (bot_respond env w).posts = (bot_respond env w₂).posts ∧
      (bot_respond env w).likes = (bot_respond env w₂).likes ∧
      (bot_respond env w).procd = (bot_respond env w₂).procd ∧
      (bot_respond env w).saveCalls = (bot_respond env w₂).saveCalls) ∧
    (∀ env : RespondEnv,
      (bot_respond env WriteOutcome.failAtOpen).fileAfter = fileOfOpt env.file) := by
  refine ⟨fun data file => ⟨rfl, rfl, rfl⟩, ?_, ?_⟩
  · intro env w w₂
    rcases env with ⟨file, me, mentions⟩
    cases me with
    | raise => simp [bot_respond]
    | ok b =>
      cases b with
      | false => simp [bot_respond]
      | true =>
        cases mentions with
        | raise => simp [bot_respond]
        | ok batch =>
          by_cases hb : batch.isEmpty
          · simp [bot_respond, hb]
          · by_cases ha : (processMentions (load_json_set file) batch).aborted = true
            · simp [bot_respond, hb, ha]
            · simp [bot_respond, hb, ha]
  · intro env
    rcases env with ⟨file, me, mentions⟩
    cases me with
    | raise => simp [bot_respond]
    | ok b =>
      cases b with
      | false => simp [bot_respond]
      | true =>
        cases mentions with
        | raise => simp [bot_respond]
        | ok batch =>
          by_cases hb : batch.isEmpty
          · simp [bot_respond, hb]
          · by_cases ha : (processMentions (load_json_set file) batch).aborted = true
            · simp [bot_respond, hb, ha]
            · simp [bot_respond, hb, ha, save_json_set]

/-- Claim C7 counterexample: an empty JSON object is a present, valid JSON
body, yet the endpoint answers 400 and dispatches nothing, because the guard
is Python truthiness (`if not request.json`) rather than a presence check. -/
theorem game_event_rejects_empty_json_object :
    (game_event hPost (some [])).resp = WebhookResp.err400 ∧
    (game_event hPost (some [])).dispatched = false := by decide

/-- Claim C7 (amended): `POST /9dttt-event` answers 400 exactly when the
request has a missing/invalid JSON body or a falsy one (the empty object);
any other JSON body is dispatched to the bridge and answered
`200 {"ok": true}` unconditionally, the bridge never raising outward even
when a handler raises. -/
theorem game_event_status_policy (h : Handlers) (body : Option EventDict) :
    ((game_event h body).resp = WebhookResp.err400 ↔ body = none ∨ body = some []) ∧
    (∀ d : EventDict, body = some d → d ≠ [] →
      (game_event h body).resp = WebhookResp.ok200 ∧
      (game_event h body).dispatched = true ∧
      (game_event h body).posts = (game_event_bridge h d).posts) ∧
    (∀ d : EventDict, (game_event_bridge h d).raises = false) := by
  refine ⟨?_, ?_, fun d => rfl⟩
  · cases body with
    | none => simp [game_event]
    | some d =>
      cases d with
      | nil => simp [game_event]
      | cons p t => simp [game_event]
  · intro d hd hne
    subst hd
    cases d with
    | nil => exact absurd rfl hne
    | cons p t => simp [game_event]

/-- Claim C7 witness: a non-empty JSON body is dispatched and acknowledged
with 200. -/
theorem game_event_status_policy_witness :
    (some [("type", "win")] = some ([("type", "win")] : EventDict) ∧
      ([("type", "win")] : EventDict) ≠ []) ∧
    ((game_event hPost (some [("type", "win")])).resp = WebhookResp.ok200 ∧
      (game_event hPost (some [("type", "win")])).dispatched = true ∧
      (game_event hPost (some [("type", "win")])).posts
        = (game_event_bridge hPost [("type", "win")]).posts) :=
  ⟨⟨rfl, by decide⟩,
    (game_event_status_policy hPost (some [("type", "win")])).2.1
      [("type", "win")] rfl (by decide)⟩

/-- Claim C8: an event payload whose `type` field is not one of the six known
values makes no post, raises nothing outward, and the webhook caller still
receives `200 {"ok": true}`. -/
theorem game_event_bridge_ignores_unknown_type (h : Handlers) (d : EventDict) (v : String)
    (hv : dictGet d "type" = some v)
    (hunk : v ∉ (["win", "game_start", "tournament", "achievement", "challenge",
      "leaderboard"] : List String)) :
    (game_event_bridge h d).posts = [] ∧
    (game_event_bridge h d).raises = false ∧
    (game_event h (some d)).resp = WebhookResp.ok200 ∧
    (game_event h (some d)).dispatched = true := by
  simp only [List.mem_cons, List.not_mem_nil, or_false, not_or] at hunk
  obtain ⟨n1, n2, n3, n4, n5, n6⟩ := hunk
  have hd : d ≠ [] := by
    intro he
    rw [he] at hv
    simp [dictGet] at hv
  have hbr : game_event_bridge h d = ⟨[], false⟩ := by
    simp [game_event_bridge, hv, n1, n2, n3, n4, n5, n6]
  refine ⟨by rw [hbr], by rw [hbr], ?_, ?_⟩ <;>
    cases d with
    | nil => exact absurd rfl hd
    | cons p t => simp [game_event]

/-- Claim C8 witness: the unknown type `"mystery"` triggers no handler, no
post, and a 200 acknowledgment. -/
theorem game_event_bridge_ignores_unknown_type_witness :
    dictGet [("type", "mystery")] "type" = some "mystery" ∧
    ("mystery" ∉ (["win", "game_start", "tournament", "achievement", "challenge",
      "leaderboard"] : List String)) ∧
    ((game_event_bridge hPost [("type", "mystery")]).posts = [] ∧
      (game_event_bridge hPost [("type", "mystery")]).raises = false ∧
      (game_event hPost (some [("type", "mystery")])).resp = WebhookResp.ok200 ∧
      (game_event hPost (some [("type", "mystery")])).dispatched = true) :=
  ⟨by decide, by decide,
    game_event_bridge_ignores_unknown_type hPost [("type", "mystery")] "mystery"
      (by decide) (by decide)⟩
